import Mathlib

/-!
Verification of the agent-orchestration core of Preflight-ai
(`backend/agents/base_agent.py` and `backend/agents/director.py`).

The Python code is shallowly embedded: JSON values become an inductive type,
Python dicts become insertion-ordered association lists, the external Ollama
HTTP endpoint becomes an oracle function indexed by a running call counter,
`json.loads` (standard library, not repository code) becomes a parameter of
type `String → Option JsonVal`, `datetime.now()` becomes a ticking counter
rendered to a string, and Python exceptions that escape a function become an
`Except PyErr` result.  Fallible repository code is translated statement by
statement from the source, including the statements that can raise.
-/

/-- A JSON value as produced by `json.loads` / consumed by `json.dumps`.
Numbers are rationals so that both the integer literals (`50`) and the float
literals (`0.5`) of the source are representable exactly. -/
inductive JsonVal where
  | null : JsonVal
  | bool (b : Bool) : JsonVal
  | num (q : Rat) : JsonVal
  | str (s : String) : JsonVal
  | arr (elems : List JsonVal) : JsonVal
  | obj (fields : List (String × JsonVal)) : JsonVal

/-- True exactly on `JsonVal.str`. -/
def JsonVal.isStr : JsonVal → Bool
  | .str _ => true
  | _ => false

/-- The Python type name of the value, as it appears in exception messages. -/
def pyTypeName : JsonVal → String
  | .null => "NoneType"
  | .bool _ => "bool"
  | .num q => if q.den = 1 then "int" else "float"
  | .str _ => "str"
  | .arr _ => "list"
  | .obj _ => "dict"

/-- Rendering of a number (used only inside prompt strings handed to the
oracle; Python float formatting is abstracted to `num/den`). -/
def numToString (q : Rat) : String :=
  if q.den = 1 then toString q.num else toString q.num ++ "/" ++ toString q.den

mutual
/-- Model of `json.dumps` (indentation abstracted away; the output is only
ever embedded into prompt text handed to the opaque oracle). -/
def dumps : JsonVal → String
  | .null => "null"
  | .bool b => if b then "true" else "false"
  | .num q => numToString q
  | .str s => "\"" ++ s ++ "\""
  | .arr l => "[" ++ dumpsList l ++ "]"
  | .obj l => "\x7b" ++ dumpsFields l ++ "\x7d"
termination_by structural x => x

/-- Serializes the elements of a JSON array, comma separated. -/
def dumpsList : List JsonVal → String
  | [] => ""
  | [x] => dumps x
  | x :: xs => dumps x ++ ", " ++ dumpsList xs
termination_by structural x => x

/-- Serializes the fields of a JSON object, comma separated. -/
def dumpsFields : List (String × JsonVal) → String
  | [] => ""
  | [(k, v)] => "\"" ++ k ++ "\": " ++ dumps v
  | (k, v) :: xs => "\"" ++ k ++ "\": " ++ dumps v ++ ", " ++ dumpsFields xs
termination_by structural x => x
end

/-- Model of Python `str(value)` as used in f-string interpolation. -/
def pyStr : JsonVal → String
  | .str s => s
  | .num q => numToString q
  | .null => "None"
  | .bool b => if b then "True" else "False"
  | v => dumps v

/-- A Python exception escaping a function of the embedded code. -/
inductive PyErr where
  | attributeError (msg : String) : PyErr
  | typeError (msg : String) : PyErr

/-- Python `str.find(c)`: index of the first occurrence, `-1` if absent. -/
def pyFind (s : String) (c : Char) : Int :=
  match s.data.findIdx? (fun x => x = c) with
  | some i => (i : Int)
  | none => -1

/-- Python `str.rfind(c)`: index of the last occurrence, `-1` if absent. -/
def pyRfind (s : String) (c : Char) : Int :=
  match s.data.reverse.findIdx? (fun x => x = c) with
  | some i => ((s.data.length : Int) - 1 - (i : Int))
  | none => -1

/-- Python slice `s[a:b]` for `0 ≤ a ≤ b`. -/
def pySlice (s : String) (a b : Nat) : String :=
  String.mk ((s.data.drop a).take (b - a))

/-- Python slice `l[-n:]`. -/
def pyTakeLast (l : List α) (n : Nat) : List α := l.drop (l.length - n)

/-- Update of an insertion-ordered Python dict: replace the value in place
when the key is present, append the binding otherwise. -/
def dictSet (l : List (String × α)) (k : String) (v : α) : List (String × α) :=
  match l with
  | [] => [(k, v)]
  | (k2, v2) :: rest => if k2 = k then (k2, v) :: rest else (k2, v2) :: dictSet rest k v

/-- String-prefix test on the underlying character lists. -/
def strHasPrefix (p s : String) : Bool := p.data.isPrefixOf s.data

/-- One entry of an agent's conversation memory (`self.memory`). -/
structure MemoryEntry where
  role : String
  content : String
  timestamp : String

/-- One chat message sent to the Ollama endpoint. -/
structure Message where
  role : String
  content : String

/-- `AgentTool` from `base_agent.py`: a registered tool. -/
structure AgentTool where
  name : String
  description : String
  function : JsonVal → Except String JsonVal
  parameters : JsonVal

/-- `AgentTool.execute`: call the bound function, converting any raised
exception into the structured error dict. -/
def AgentTool.execute (t : AgentTool) (params : JsonVal) : JsonVal :=
  match t.function params with
  | .ok v => v
  | .error e => .obj [("error", .str ("Tool execution failed: " ++ e))]

/-- One record of `self.task_history`. -/
structure TaskRecord where
  timestamp : String
  task : String
  decision : JsonVal
  tool_results : List JsonVal
  synthesis : JsonVal

/-- The mutable state of a `BaseAgent` (transport endpoint and model tag kept
as inert strings; the HTTP layer is abstracted into the oracle). -/
structure AgentState where
  name : String
  role : String
  system_prompt : String
  model : String
  memory : List MemoryEntry
  max_memory : Nat
  tools : List (String × AgentTool)
  task_history : List TaskRecord

/-- `BaseAgent.__init__`. -/
def mkBaseAgent (name role system_prompt model : String) : AgentState :=
  { name := name, role := role, system_prompt := system_prompt, model := model,
    memory := [], max_memory := 10, tools := [], task_history := [] }

/-- `BaseAgent.register_tool`: builds the tool and stores it under `name`
(`self.tools[name] = tool`, a plain dict assignment). -/
def register_tool (st : AgentState) (name description : String)
    (function : JsonVal → Except String JsonVal) (parameters : JsonVal) : AgentState :=
  { st with tools := dictSet st.tools name ⟨name, description, function, parameters⟩ }

/-- Ambient counters: how many oracle calls were made so far and the current
time tick (`datetime.now()` is rendered from the tick). -/
structure World where
  llmCount : Nat
  tick : Nat

/-- Rendering of `datetime.now().isoformat()` at the current tick. -/
def nowStr (w : World) : String := "T" ++ toString w.tick

/-- Advance the clock by one `datetime.now()` call. -/
def wTick (w : World) : World := { w with tick := w.tick + 1 }

/-- `BaseAgent.add_to_memory`: append a timestamped entry, then truncate to
the last `max_memory` entries. -/
def add_to_memory (st : AgentState) (role content : String) (w : World) :
    AgentState × World :=
  let mem := st.memory ++ [⟨role, content, nowStr w⟩]
  let mem2 := if mem.length > st.max_memory then pyTakeLast mem st.max_memory else mem
  ({ st with memory := mem2 }, wTick w)

/-- `BaseAgent.get_tools_description`: the JSON-formatted tool list. -/
def get_tools_description (st : AgentState) : String :=
  dumps (.arr (st.tools.map fun p =>
    .obj [("name", .str p.1), ("description", .str p.2.description),
          ("parameters", p.2.parameters)]))

/-- What the `requests.post` call to Ollama produced: a raised transport or
timeout exception, or an HTTP response whose JSON body may fail to parse. -/
inductive WireResponse where
  | transportError (msg : String) : WireResponse
  | http (status : Nat) (body : Except String JsonVal) : WireResponse

/-- The external oracle: response to the n-th call, given the message list
and the temperature.  Quantifying over `Oracle` quantifies over every
possible behaviour of the external service. -/
def Oracle : Type := Nat → List Message → Rat → WireResponse

/-- `json.loads` of the standard library, abstracted: `none` models a raised
`json.JSONDecodeError`. -/
def Loads : Type := String → Option JsonVal

/-- `result.get("message", \x7b\x7d).get("content", "")` on the decoded 2xx
body; a non-dict receiver raises `AttributeError` (caught by the enclosing
`try` of `call_llm`). -/
def extractContent (j : JsonVal) : Except String JsonVal :=
  match j with
  | .obj fields =>
      match (List.lookup "message" fields).getD (.obj []) with
      | .obj mfields => .ok ((List.lookup "content" mfields).getD (.str ""))
      | m => .error ("\x27" ++ pyTypeName m ++ "\x27 object has no attribute \x27get\x27")
  | _ => .error ("\x27" ++ pyTypeName j ++ "\x27 object has no attribute \x27get\x27")

/-- The body of `BaseAgent.call_llm` after the request resolves: every raised
exception is caught and converted to sentinel text, a non-200 status is
reported as sentinel text, and a 200 response yields its `message.content`. -/
def rawLlmResult (resp : WireResponse) : JsonVal :=
  match resp with
  | .transportError e => .str ("Error calling LLM: " ++ e)
  | .http status body =>
      if status = 200 then
        match body with
        | .error e => .str ("Error calling LLM: " ++ e)
        | .ok j =>
            match extractContent j with
            | .ok v => v
            | .error e => .str ("Error calling LLM: " ++ e)
      else .str ("Error: Ollama returned " ++ toString status)

/-- The message list built by `call_llm`: system prompt, the last five memory
entries, then the current prompt. -/
def buildMessages (st : AgentState) (prompt : String) : List Message :=
  ⟨"system", st.system_prompt⟩ ::
    ((pyTakeLast st.memory 5).map (fun m => (⟨m.role, m.content⟩ : Message)) ++
      [⟨"user", prompt⟩])

/-- `BaseAgent.call_llm`: one oracle call; returns the content value (the
source returns it without checking that it is text) and bumps the counter. -/
def call_llm (oracle : Oracle) (st : AgentState) (w : World) (prompt : String)
    (temperature : Rat) : JsonVal × World :=
  (rawLlmResult (oracle w.llmCount (buildMessages st prompt) temperature),
   { w with llmCount := w.llmCount + 1 })

/-- The planning prompt of `decide_and_act` (template of the source with the
task and the tool catalog spliced in). -/
def decisionPrompt (task tools_desc : String) : String :=
  "\nTask: " ++ task ++ "\n\nAvailable Tools:\n" ++ tools_desc ++
  "\n\nInstructions:\n1. Analyze the task carefully\n2. Decide which tools to use and in what order\n3. Provide your reasoning\n4. Output your plan in JSON format:\n\n```json\n\x7b\n  \"reasoning\": \"Your thought process\",\n  \"tools_to_use\": [\n    \x7b\"tool\": \"tool_name\", \"parameters\": \x7b\"param1\": \"value1\"\x7d\x7d,\n  ],\n  \"expected_outcome\": \"What you expect to learn\"\n\x7d\n```\n"

/-- The synthesis prompt of `decide_and_act` with the serialized tool results
spliced in. -/
def synthesisPrompt (tool_results : List JsonVal) : String :=
  "\nYou executed the following tools:\n" ++ dumps (.arr tool_results) ++
  "\n\nBased on these results, provide:\n1. Key findings\n2. Patterns or insights\n3. Recommendations\n4. Confidence level (0-100%)\n\nFormat as JSON:\n```json\n\x7b\n  \"key_findings\": [\"finding1\", \"finding2\"],\n  \"insights\": \"Your analysis\",\n  \"recommendations\": [\"rec1\", \"rec2\"],\n  \"confidence\": 85\n\x7d\n```\n"

/-- The plan-parsing block of `decide_and_act`: scan for the first brace and
the last closing brace, parse the substring, and fall back to the degenerate
plan on a missing span or a parse failure. -/
def parse_decision (loads : Loads) (decision : String) : JsonVal :=
  let start := pyFind decision '{'
  let stop := pyRfind decision '}' + 1
  if start ≠ -1 ∧ stop > start then
    match loads (pySlice decision start.toNat stop.toNat) with
    | some v => v
    | none =>
        .obj [("reasoning", .str decision), ("tools_to_use", .arr []),
              ("expected_outcome", .str "Could not parse decision")]
  else
    .obj [("reasoning", .str decision), ("tools_to_use", .arr []),
          ("expected_outcome", .str "Manual analysis required")]

/-- The synthesis-parsing block of `decide_and_act`, with its fallback. -/
def parse_synthesis (loads : Loads) (synthesis : String) : JsonVal :=
  let start := pyFind synthesis '{'
  let stop := pyRfind synthesis '}' + 1
  if start ≠ -1 ∧ stop > start then
    match loads (pySlice synthesis start.toNat stop.toNat) with
    | some v => v
    | none => .obj [("insights", .str synthesis), ("confidence", .num 50)]
  else .obj [("insights", .str synthesis), ("confidence", .num 50)]

/-- Execution of one parsed plan entry list (`for tool_plan in ...` of the
source): non-dict entries raise `AttributeError` at `tool_plan.get`,
unhashable tool names raise `TypeError` at the membership test, a present
tool with a non-dict parameter value raises `TypeError` at `execute(**params)`,
and entries naming unknown tools are silently skipped. -/
def execPlans (tools : List (String × AgentTool)) : List JsonVal → Except PyErr (List JsonVal)
  | [] => .ok []
  | p :: rest =>
    match p with
    | .obj pf =>
        let tool_name := (List.lookup "tool" pf).getD .null
        let params := (List.lookup "parameters" pf).getD (.obj [])
        match tool_name with
        | .arr _ => .error (.typeError "unhashable type: \x27list\x27")
        | .obj _ => .error (.typeError "unhashable type: \x27dict\x27")
        | .str s =>
            match List.lookup s tools with
            | some tool =>
                match params with
                | .obj _ =>
                    let result := tool.execute params
                    (execPlans tools rest).map
                      (fun rs =>
                        .obj [("tool", .str s), ("parameters", params),
                              ("result", result)] :: rs)
                | other =>
                    .error (.typeError
                      ("argument after ** must be a mapping, not " ++ pyTypeName other))
            | none => execPlans tools rest
        | _ => execPlans tools rest
    | other =>
        .error (.attributeError
          ("\x27" ++ pyTypeName other ++ "\x27 object has no attribute \x27get\x27"))

/-- The tool-execution loop of `decide_and_act` on the value found under
`tools_to_use`: iterating a non-sequence raises `TypeError`, iterating a
non-empty string or dict yields strings whose `.get` raises
`AttributeError`, and a list is processed entry by entry. -/
def exec_tools (tools : List (String × AgentTool)) (ttu : JsonVal) :
    Except PyErr (List JsonVal) :=
  match ttu with
  | .arr l => execPlans tools l
  | .str s =>
      if s.data.isEmpty then .ok []
      else .error (.attributeError "\x27str\x27 object has no attribute \x27get\x27")
  | .obj fs =>
      if fs.isEmpty then .ok []
      else .error (.attributeError "\x27str\x27 object has no attribute \x27get\x27")
  | other => .error (.typeError ("\x27" ++ pyTypeName other ++ "\x27 object is not iterable"))

/-- The dictionary returned by `decide_and_act`. -/
structure DAResult where
  agent : String
  reasoning : JsonVal
  actions : List JsonVal
  conclusion : JsonVal
  timestamp : String

/-- `BaseAgent.decide_and_act`, statement by statement.  The first component
is the returned dictionary, or the Python exception that escapes the method;
the other components are the mutated agent state and counters at exit. -/
def decide_and_act (oracle : Oracle) (loads : Loads) (st : AgentState) (w : World)
    (task : String) : (Except PyErr DAResult) × AgentState × World :=
  let (st1, w1) := add_to_memory st "user" task w
  let prompt := decisionPrompt task (get_tools_description st1)
  let (decision, w2) := call_llm oracle st1 w1 prompt 0.3
  match decision with
  | .str ds =>
    let dj := parse_decision loads ds
    match dj with
    | .obj dfs =>
      let ttu := (List.lookup "tools_to_use" dfs).getD (.arr [])
      match exec_tools st1.tools ttu with
      | .error e => (.error e, st1, w2)
      | .ok tool_results =>
        let (synthesis, w3) := call_llm oracle st1 w2 (synthesisPrompt tool_results) 0.5
        match synthesis with
        | .str ss =>
          let sj := parse_synthesis loads ss
          let record : TaskRecord := ⟨nowStr w3, task, dj, tool_results, sj⟩
          let st2 := { st1 with task_history := st1.task_history ++ [record] }
          let w4 := wTick w3
          match sj with
          | .obj sfs =>
            let conf := (List.lookup "confidence" sfs).getD (.str "N/A")
            let (st3, w5) :=
              add_to_memory st2 "assistant"
                ("Completed task. Confidence: " ++ pyStr conf ++ "%") w4
            let reasoning := (List.lookup "reasoning" dfs).getD (.str "")
            (.ok ⟨st.name, reasoning, tool_results, sj, nowStr w5⟩, st3, wTick w5)
          | other =>
            (.error (.attributeError
               ("\x27" ++ pyTypeName other ++ "\x27 object has no attribute \x27get\x27")),
             st2, w4)
        | other =>
          (.error (.attributeError
             ("\x27" ++ pyTypeName other ++ "\x27 object has no attribute \x27find\x27")),
           st1, w3)
    | other =>
      (.error (.attributeError
         ("\x27" ++ pyTypeName other ++ "\x27 object has no attribute \x27get\x27")),
       st1, w2)
  | other =>
    (.error (.attributeError
       ("\x27" ++ pyTypeName other ++ "\x27 object has no attribute \x27find\x27")),
     st1, w2)

/-- The system prompt fixed by `DirectorAgent.__init__`. -/
def directorSystemPrompt : String :=
  "You are the Director Agent for PreFlight AI flight delay prediction system.\n\nYour responsibilities:\n1. Analyze flight prediction requests\n2. Decompose tasks and delegate to specialist agents:\n   - Weather Specialist: Analyzes meteorological conditions\n   - Flight Specialist: Analyzes historical flight patterns\n   - Location Specialist: Analyzes geographic factors\n   - Prediction Specialist: Runs ML models\n3. Synthesize results from all specialists\n4. Make final prediction with confidence level\n5. Provide actionable recommendations\n\nYou have autonomous decision-making authority. Think step-by-step and justify your decisions.\n\nOutput Format (JSON):\n\x7b\n  \"task_analysis\": \"Your understanding of the request\",\n  \"subtasks\": [\n    \x7b\"agent\": \"weather_specialist\", \"task\": \"Analyze weather for DXB-LHR\"\x7d,\n    \x7b\"agent\": \"flight_specialist\", \"task\": \"Get route history DXB-LHR\"\x7d\n  ],\n  \"coordination_strategy\": \"How you\x27ll combine results\",\n  \"expected_timeline\": \"Estimated completion time\"\n\x7d\n"

/-- The state of a `DirectorAgent`: its own `BaseAgent` state plus the
`self.specialists` registry. -/
structure DirectorState where
  agent : AgentState
  specialists : List (String × AgentState)

/-- `DirectorAgent.__init__`. -/
def mkDirector : DirectorState :=
  ⟨mkBaseAgent "Director" "Chief Coordinator" directorSystemPrompt "mistral", []⟩

/-- `DirectorAgent.register_specialist`: a plain dict assignment. -/
def register_specialist (d : DirectorState) (name : String) (agent : AgentState) :
    DirectorState :=
  { d with specialists := dictSet d.specialists name agent }

/-- The top-level task description built by `coordinate_prediction`. -/
def directorTaskDescription (flight_number origin destination departure_time : String) :
    String :=
  "\nPredict delay probability for flight " ++ flight_number ++ ":\n- Route: " ++
  origin ++ " → " ++ destination ++ "\n- Departure: " ++ departure_time ++
  "\n\nCoordinate with specialist agents to gather:\n1. Weather conditions at origin and destination\n2. Historical performance of this route\n3. Geographic factors (timezone, distance, nearby airports)\n4. ML model prediction\n\nSynthesize all data and provide final assessment.\n"

/-- `DirectorAgent._format_agent_results`. -/
def formatAgentResults (results : List (String × DAResult)) : String :=
  String.intercalate "\n"
    (results.flatMap fun p => ["\n=== " ++ p.1.toUpper ++ " ===", dumps p.2.conclusion])

/-- The final synthesis prompt of `coordinate_prediction`. -/
def coordSynthesisPrompt (flight_number : String) (results : List (String × DAResult)) :
    String :=
  "\nYou coordinated a multi-agent prediction for flight " ++ flight_number ++
  ".\n\nAgent Results:\n" ++ formatAgentResults results ++
  "\n\nSynthesize these findings into:\n1. Overall delay probability (0-1)\n2. Risk level (LOW/MODERATE/HIGH/CRITICAL)\n3. Top 3 contributing factors\n4. Confidence in prediction (0-100%)\n5. Actionable recommendations\n6. Alternative actions if delay occurs\n\nOutput as JSON:\n```json\n\x7b\n  \"delay_probability\": 0.72,\n  \"risk_level\": \"HIGH\",\n  \"contributing_factors\": [\n    \x7b\"factor\": \"crosswind\", \"impact\": 0.23, \"severity\": \"high\"\x7d,\n    \x7b\"factor\": \"route_history\", \"impact\": 0.18, \"severity\": \"medium\"\x7d\n  ],\n  \"confidence\": 85,\n  \"recommendations\": [\n    \"Notify crew 2 hours before departure\",\n    \"Prepare alternate airport\"\n  ],\n  \"alternatives\": [\"Divert to alternate\", \"Delay departure by 3 hours\"]\n\x7d\n```\n"

/-- The final-assessment parsing block of `coordinate_prediction`, with its
documented fallback verdict. -/
def parse_assessment (loads : Loads) (final_assessment : String) : JsonVal :=
  let start := pyFind final_assessment '{'
  let stop := pyRfind final_assessment '}' + 1
  if start ≠ -1 ∧ stop > start then
    match loads (pySlice final_assessment start.toNat stop.toNat) with
    | some v => v
    | none =>
        .obj [("delay_probability", .num 0.5), ("risk_level", .str "MODERATE"),
              ("confidence", .num 50)]
  else
    .obj [("delay_probability", .num 0.5), ("risk_level", .str "MODERATE"),
          ("confidence", .num 50)]

/-- One of the four hard-coded delegation blocks of `coordinate_prediction`:
if `sname` is registered, run that specialist on `task` and store its result
under `key`; the mutated specialist is written back to the registry.  The
first component is `some e` when the specialist raised `e`. -/
def delegate (oracle : Oracle) (loads : Loads) (sname key task : String)
    (specs : List (String × AgentState)) (results : List (String × DAResult))
    (w : World) :
    Option PyErr × List (String × AgentState) × List (String × DAResult) × World :=
  match List.lookup sname specs with
  | none => (none, specs, results, w)
  | some ag =>
      let (r, ag2, w2) := decide_and_act oracle loads ag w task
      let specs2 := dictSet specs sname ag2
      match r with
      | .error e => (some e, specs2, results, w2)
      | .ok res => (none, specs2, results ++ [(key, res)], w2)

/-- The comprehensive report returned by `coordinate_prediction`. -/
structure Report where
  flight_number : String
  route : String
  departure_time : String
  director_analysis : DAResult
  specialist_reports : List (String × DAResult)
  final_assessment : JsonVal
  timestamp : String
  coordinated_by : String

/-- `DirectorAgent.coordinate_prediction`: the director's own
plan-act-synthesize pass, the four hard-coded delegation blocks, the final
synthesis call, the assessment parse and the report. -/
def coordinate_prediction (oracle : Oracle) (loads : Loads) (d : DirectorState)
    (w : World) (flight_number origin destination departure_time : String) :
    (Except PyErr Report) × DirectorState × World :=
  let task := directorTaskDescription flight_number origin destination departure_time
  let (decRes, dAgent, w1) := decide_and_act oracle loads d.agent w task
  match decRes with
  | .error e => (.error e, ⟨dAgent, d.specialists⟩, w1)
  | .ok decision =>
    let (e1, specs1, res1, wa) :=
      delegate oracle loads "weather_specialist" "weather"
        ("Analyze current and forecast weather for " ++ origin ++ " and " ++ destination)
        d.specialists [] w1
    match e1 with
    | some e => (.error e, ⟨dAgent, specs1⟩, wa)
    | none =>
      let (e2, specs2, res2, wb) :=
        delegate oracle loads "flight_specialist" "flight_history"
          ("Analyze historical delays for route " ++ origin ++ "-" ++ destination)
          specs1 res1 wa
      match e2 with
      | some e => (.error e, ⟨dAgent, specs2⟩, wb)
      | none =>
        let (e3, specs3, res3, wc) :=
          delegate oracle loads "location_specialist" "location"
            ("Analyze geographic factors for route " ++ origin ++ "-" ++ destination)
            specs2 res2 wb
        match e3 with
        | some e => (.error e, ⟨dAgent, specs3⟩, wc)
        | none =>
          let (e4, specs4, res4, wd) :=
            delegate oracle loads "prediction_specialist" "prediction"
              ("Run ML prediction with all gathered data for " ++ flight_number)
              specs3 res3 wc
          match e4 with
          | some e => (.error e, ⟨dAgent, specs4⟩, wd)
          | none =>
            let (finalContent, we) :=
              call_llm oracle dAgent wd (coordSynthesisPrompt flight_number res4) 0.3
            match finalContent with
            | .str fs =>
                let assessment := parse_assessment loads fs
                (.ok ⟨flight_number, origin ++ " → " ++ destination, departure_time,
                      decision, res4, assessment, decision.timestamp, dAgent.name⟩,
                 ⟨dAgent, specs4⟩, we)
            | other =>
                (.error (.attributeError
                   ("\x27" ++ pyTypeName other ++ "\x27 object has no attribute \x27find\x27")),
                 ⟨dAgent, specs4⟩, we)

/-- The text of an oracle response whose extracted content is text. -/
def oracleText (oracle : Oracle) (n : Nat) (msgs : List Message) (t : Rat) : String :=
  match rawLlmResult (oracle n msgs t) with
  | .str s => s
  | _ => ""

/-- An oracle every one of whose responses yields text from `call_llm`
(covers well-formed 2xx bodies with string content, every sentinel path, and
every non-2xx or transport failure). -/
def goodOracle (oracle : Oracle) : Prop :=
  ∀ n msgs t, (rawLlmResult (oracle n msgs t)).isStr = true

/-- A plan entry that the tool loop processes without raising: a dict whose
`tool` value is hashable and whose `parameters` value, when present, is a
dict. -/
def goodPlanElem (p : JsonVal) : Bool :=
  match p with
  | .obj pf =>
      (match (List.lookup "tool" pf).getD .null with
       | .arr _ => false
       | .obj _ => false
       | _ => true) &&
      (match (List.lookup "parameters" pf).getD (.obj []) with
       | .obj _ => true
       | _ => false)
  | _ => false

/-- A parsed oracle payload that `decide_and_act` consumes without raising:
a dict whose `tools_to_use` value, when present, is a list of good entries. -/
def goodParsed (v : JsonVal) : Bool :=
  match v with
  | .obj fs =>
      match (List.lookup "tools_to_use" fs).getD (.arr []) with
      | .arr l => l.all goodPlanElem
      | _ => false
  | _ => false

/-- A `json.loads` oracle all of whose successful parses are well-shaped. -/
def goodLoads (loads : Loads) : Prop :=
  ∀ s v, loads s = some v → goodParsed v = true

/-- The field list of the parsed plan (canonical form used in proofs). -/
def parsedFields (loads : Loads) (s : String) : List (String × JsonVal) :=
  match parse_decision loads s with
  | .obj fs => fs
  | _ => []

/-- The field list of the parsed synthesis (canonical form used in proofs). -/
def synFields (loads : Loads) (s : String) : List (String × JsonVal) :=
  match parse_synthesis loads s with
  | .obj fs => fs
  | _ => []

/-- The tool results of a good run (canonical form used in proofs). -/
def toolsOut (tools : List (String × AgentTool)) (fs : List (String × JsonVal)) :
    List JsonVal :=
  match exec_tools tools ((List.lookup "tools_to_use" fs).getD (.arr [])) with
  | .ok rs => rs
  | .error _ => []

/-- One when a name is registered, zero otherwise. -/
def cntOf (sname : String) (specs : List (String × AgentState)) : Nat :=
  if (List.lookup sname specs).isSome then 1 else 0

/-- How many of the four recognized specialist names are registered. -/
def specialistCount (specs : List (String × AgentState)) : Nat :=
  cntOf "weather_specialist" specs + cntOf "flight_specialist" specs +
  cntOf "location_specialist" specs + cntOf "prediction_specialist" specs

/-- The keys of `specialist_reports` the code produces: one fixed key per
recognized registered name, in the hard-coded order. -/
def expectedReportKeys (specs : List (String × AgentState)) : List String :=
  (if (List.lookup "weather_specialist" specs).isSome then ["weather"] else []) ++
  (if (List.lookup "flight_specialist" specs).isSome then ["flight_history"] else []) ++
  (if (List.lookup "location_specialist" specs).isSome then ["location"] else []) ++
  (if (List.lookup "prediction_specialist" specs).isSome then ["prediction"] else [])

/-- The timestamped entries that a sequence of `add_to_memory` calls with
the given roles and contents appends, in call order. -/
def entriesOf (w : World) : List (String × String) → List MemoryEntry
  | [] => []
  | (r, c) :: rest => ⟨r, c, nowStr w⟩ :: entriesOf (wTick w) rest

/-- Iterate `add_to_memory` over a list of `(role, content)` pairs. -/
def applyAppends (st : AgentState) (w : World) (ops : List (String × String)) :
    AgentState × World :=
  ops.foldl (fun p op => add_to_memory p.1 op.1 op.2 p.2) (st, w)

/-- The source's brace-span test `start != -1 and end > start`. -/
def hasJsonSpan (s : String) : Bool :=
  decide (pyFind s '{' ≠ -1 ∧ pyRfind s '}' + 1 > pyFind s '{')

/-- A benign oracle: every response is 200 with plain-prose string content. -/
def demoOracle : Oracle := fun _ _ _ =>
  .http 200 (.ok (.obj [("message", .obj [("content", .str "no structured output")])]))

/-- A loads oracle that always fails to parse. -/
def demoLoads : Loads := fun _ => none

/-- A fresh worker as built by the constructor. -/
def demoAgent : AgentState :=
  mkBaseAgent "Weather" "Weather Analyst" "You analyze weather." "mistral"

/-- A tool whose bound function always raises. -/
def demoFailTool : AgentTool :=
  ⟨"boom", "always fails", fun _ => .error "division by zero", .obj []⟩

/-- The plan text of the C2 counterexample: valid JSON whose
`tools_to_use` is the number `5`. -/
def cexPlanText : String := "\x7b\"tools_to_use\": 5\x7d"

/-- An oracle whose 2xx content is `cexPlanText`. -/
def cexOracle : Oracle := fun _ _ _ =>
  .http 200 (.ok (.obj [("message", .obj [("content", .str cexPlanText)])]))

/-- `json.loads` on the brace span of `cexPlanText` (what the Python parser
returns on that input). -/
def cexLoads : Loads := fun s =>
  if s = cexPlanText then some (.obj [("tools_to_use", .num 5)]) else none

/-- Is the outcome a normally returned value (rather than a raised
exception)? -/
def isOkResult {ε α : Type} : Except ε α → Bool
  | .ok _ => true
  | .error _ => false

/-- A director with one registered weather specialist. -/
def demoDirector : DirectorState :=
  register_specialist mkDirector "weather_specialist" demoAgent

/-- A director whose only specialist is registered under a name outside the
four recognized ones. -/
def strayDirector : DirectorState :=
  register_specialist mkDirector "route_specialist" demoAgent

/-- A director with the prediction specialist registered first and the
weather specialist second. -/
def twoDirector : DirectorState :=
  register_specialist
    (register_specialist mkDirector "prediction_specialist" demoAgent)
    "weather_specialist" demoAgent

theorem raw_as_str {oracle : Oracle} (ho : goodOracle oracle) (n : Nat)
    (msgs : List Message) (t : Rat) :
    rawLlmResult (oracle n msgs t) = .str (oracleText oracle n msgs t) := by
  have h := ho n msgs t
  unfold oracleText
  rcases hr : rawLlmResult (oracle n msgs t) with _ | b | q | s | l | fs <;>
    rw [hr] at h <;> simp [JsonVal.isStr] at h

theorem goodParsed_parse_decision {loads : Loads} (hl : goodLoads loads) (s : String) :
    goodParsed (parse_decision loads s) = true := by
  unfold parse_decision
  dsimp only
  split
  · split
    · next v hv => exact hl _ v hv
    · rfl
  · rfl

theorem goodParsed_parse_synthesis {loads : Loads} (hl : goodLoads loads) (s : String) :
    goodParsed (parse_synthesis loads s) = true := by
  unfold parse_synthesis
  dsimp only
  split
  · split
    · next v hv => exact hl _ v hv
    · rfl
  · rfl

theorem parse_decision_as_obj {loads : Loads} (hl : goodLoads loads) (s : String) :
    parse_decision loads s = .obj (parsedFields loads s) := by
  have h := goodParsed_parse_decision hl s
  unfold parsedFields
  rcases hp : parse_decision loads s with _ | b | q | t | l | fs <;>
    rw [hp] at h <;> simp [goodParsed] at h

theorem parse_synthesis_as_obj {loads : Loads} (hl : goodLoads loads) (s : String) :
    parse_synthesis loads s = .obj (synFields loads s) := by
  have h := goodParsed_parse_synthesis hl s
  unfold synFields
  rcases hp : parse_synthesis loads s with _ | b | q | t | l | fs <;>
    rw [hp] at h <;> simp [goodParsed] at h

theorem goodParsed_obj_parsedFields {loads : Loads} (hl : goodLoads loads) (s : String) :
    goodParsed (.obj (parsedFields loads s)) = true := by
  rw [← parse_decision_as_obj hl s]
  exact goodParsed_parse_decision hl s

theorem goodParsed_obj_synFields {loads : Loads} (hl : goodLoads loads) (s : String) :
    goodParsed (.obj (synFields loads s)) = true := by
  rw [← parse_synthesis_as_obj hl s]
  exact goodParsed_parse_synthesis hl s

theorem execPlans_isOk (tools : List (String × AgentTool)) :
    ∀ l : List JsonVal, l.all goodPlanElem = true →
      ∃ rs, execPlans tools l = .ok rs := by
  intro l
  induction l with
  | nil => intro _; exact ⟨[], rfl⟩
  | cons p rest ih =>
    intro h
    rw [List.all_cons, Bool.and_eq_true] at h
    obtain ⟨hp, hrest⟩ := h
    obtain ⟨rs, hrs⟩ := ih hrest
    rcases p with _ | b | q | s | l2 | pf <;> simp [goodPlanElem] at hp
    rcases htool : (List.lookup "tool" pf).getD .null with _ | b | q | s | l3 | g <;>
      rw [htool] at hp <;> simp at hp
    case str =>
      rcases hpar : (List.lookup "parameters" pf).getD (.obj []) with _ | b | q | t | l4 | g <;>
        rw [hpar] at hp <;> simp at hp
      rcases hreg : List.lookup s tools with _ | tool
      · exact ⟨rs, by simp only [execPlans, htool, hpar, hreg, hrs]⟩
      · exact ⟨.obj [("tool", .str s), ("parameters", .obj g),
                     ("result", tool.execute (.obj g))] :: rs,
          by simp only [execPlans, htool, hpar, hreg, hrs, Except.map]⟩
    case null => exact ⟨rs, by simp only [execPlans, htool, hrs]⟩
    case bool => exact ⟨rs, by simp only [execPlans, htool, hrs]⟩
    case num => exact ⟨rs, by simp only [execPlans, htool, hrs]⟩

theorem exec_tools_as_ok {tools : List (String × AgentTool)}
    {fs : List (String × JsonVal)} (h : goodParsed (.obj fs) = true) :
    exec_tools tools ((List.lookup "tools_to_use" fs).getD (.arr [])) =
      .ok (toolsOut tools fs) := by
  simp only [goodParsed] at h
  rcases httu : (List.lookup "tools_to_use" fs).getD (.arr []) with _ | b | q | s | l | g <;>
    rw [httu] at h <;> simp at h
  case arr =>
    obtain ⟨rs, hrs⟩ := execPlans_isOk tools l (List.all_eq_true.mpr h)
    simp only [toolsOut, httu, exec_tools, hrs]

theorem decide_and_act_good {oracle : Oracle} {loads : Loads}
    (ho : goodOracle oracle) (hl : goodLoads loads)
    (st : AgentState) (w : World) (task : String) :
    ∃ r st2, decide_and_act oracle loads st w task =
      (.ok r, st2, ⟨w.llmCount + 2, w.tick + 4⟩) := by
  simp only [decide_and_act, add_to_memory, call_llm, wTick, nowStr,
    raw_as_str ho, parse_decision_as_obj hl, parse_synthesis_as_obj hl,
    exec_tools_as_ok, goodParsed_obj_parsedFields hl]
  exact ⟨_, _, rfl⟩

theorem lookup_dictSet {α : Type} (l : List (String × α)) (k k2 : String) (v : α) :
    List.lookup k2 (dictSet l k v) = if k2 = k then some v else List.lookup k2 l := by
  induction l with
  | nil =>
    by_cases h2 : k2 = k
    · subst h2; simp [dictSet, List.lookup]
    · have hb : (k2 == k) = false := beq_eq_false_iff_ne.mpr h2
      simp [dictSet, List.lookup, hb, h2]
  | cons p rest ih =>
    obtain ⟨k3, v3⟩ := p
    by_cases hk : k3 = k
    · subst hk
      by_cases h2 : k2 = k3
      · subst h2; simp [dictSet, List.lookup]
      · have hb : (k2 == k3) = false := beq_eq_false_iff_ne.mpr h2
        simp [dictSet, List.lookup, hb, h2]
    · by_cases h2 : k2 = k3
      · subst h2
        simp [dictSet, if_neg hk, List.lookup, hk]
      · have hb : (k2 == k3) = false := beq_eq_false_iff_ne.mpr h2
        simp [dictSet, if_neg hk, List.lookup, hb, ih]

theorem lookup_dictSet_isSome {α : Type} (l : List (String × α)) (k k2 : String) (v : α)
    (h : (List.lookup k l).isSome = true) :
    (List.lookup k2 (dictSet l k v)).isSome = (List.lookup k2 l).isSome := by
  rw [lookup_dictSet]
  by_cases h2 : k2 = k
  · subst h2; simp [h]
  · simp [h2]

theorem delegate_good {oracle : Oracle} {loads : Loads}
    (ho : goodOracle oracle) (hl : goodLoads loads) (sname key task : String)
    (specs : List (String × AgentState)) (results : List (String × DAResult))
    (w : World) :
    ∃ specs2 add w2,
      delegate oracle loads sname key task specs results w =
        (none, specs2, results ++ add, w2) ∧
      w2.llmCount = w.llmCount + 2 * cntOf sname specs ∧
      w2.tick = w.tick + 4 * cntOf sname specs ∧
      add.map Prod.fst = (if (List.lookup sname specs).isSome then [key] else []) ∧
      (∀ k2, (List.lookup k2 specs2).isSome = (List.lookup k2 specs).isSome) := by
  rcases hx : List.lookup sname specs with _ | ag
  · refine ⟨specs, [], w, ?_, ?_, ?_, ?_, ?_⟩
    · simp [delegate, hx]
    · simp [cntOf, hx]
    · simp [cntOf, hx]
    · simp [hx]
    · intro k2; rfl
  · obtain ⟨r, st2, hda⟩ := decide_and_act_good ho hl ag w task
    refine ⟨dictSet specs sname st2, [(key, r)], ⟨w.llmCount + 2, w.tick + 4⟩,
            ?_, ?_, ?_, ?_, ?_⟩
    · simp [delegate, hx, hda]
    · simp [cntOf, hx]
    · simp [cntOf, hx]
    · simp [hx]
    · intro k2
      exact lookup_dictSet_isSome specs sname k2 st2 (by simp [hx])

theorem coordinate_good {oracle : Oracle} {loads : Loads}
    (ho : goodOracle oracle) (hl : goodLoads loads)
    (d : DirectorState) (w : World) (fl o ds dep : String) :
    ∃ report d2 w2,
      coordinate_prediction oracle loads d w fl o ds dep = (.ok report, d2, w2) ∧
      w2.llmCount = w.llmCount + 2 * specialistCount d.specialists + 3 ∧
      report.specialist_reports.map Prod.fst = expectedReportKeys d.specialists ∧
      (∃ fs, report.final_assessment = parse_assessment loads fs) := by
  obtain ⟨r0, stD, hd0⟩ :=
    decide_and_act_good ho hl d.agent w (directorTaskDescription fl o ds dep)
  obtain ⟨S1, A1, w1, h1, hc1, ht1, hk1, hs1⟩ :=
    delegate_good ho hl "weather_specialist" "weather"
      ("Analyze current and forecast weather for " ++ o ++ " and " ++ ds)
      d.specialists [] ⟨w.llmCount + 2, w.tick + 4⟩
  obtain ⟨S2, A2, w2, h2, hc2, ht2, hk2, hs2⟩ :=
    delegate_good ho hl "flight_specialist" "flight_history"
      ("Analyze historical delays for route " ++ o ++ "-" ++ ds)
      S1 ([] ++ A1) w1
  obtain ⟨S3, A3, w3, h3, hc3, ht3, hk3, hs3⟩ :=
    delegate_good ho hl "location_specialist" "location"
      ("Analyze geographic factors for route " ++ o ++ "-" ++ ds)
      S2 (([] ++ A1) ++ A2) w2
  obtain ⟨S4, A4, w4, h4, hc4, ht4, hk4, hs4⟩ :=
    delegate_good ho hl "prediction_specialist" "prediction"
      ("Run ML prediction with all gathered data for " ++ fl)
      S3 ((([] ++ A1) ++ A2) ++ A3) w3
  have e2 : cntOf "flight_specialist" S1 = cntOf "flight_specialist" d.specialists := by
    simp only [cntOf, hs1]
  have e3 : cntOf "location_specialist" S2 = cntOf "location_specialist" d.specialists := by
    simp only [cntOf, hs2, hs1]
  have e4 : cntOf "prediction_specialist" S3 =
      cntOf "prediction_specialist" d.specialists := by
    simp only [cntOf, hs3, hs2, hs1]
  simp only [coordinate_prediction, hd0, h1, h2, h3, h4, call_llm, raw_as_str ho]
  refine ⟨_, _, _, rfl, ?_, ?_, ⟨_, rfl⟩⟩
  · simp only [specialistCount]
    simp at hc1
    omega
  · simp only [List.map_append, hk1, hk2, hk3, hk4, hs1, hs2, hs3]
    simp [expectedReportKeys]

theorem pyTakeLast_eq_self {α : Type} {l : List α} {n : Nat} (h : l.length ≤ n) :
    pyTakeLast l n = l := by
  simp [pyTakeLast, Nat.sub_eq_zero_of_le h]

theorem pyTakeLast_length_le {α : Type} (l : List α) (n : Nat) :
    (pyTakeLast l n).length ≤ n := by
  simp only [pyTakeLast, List.length_drop]
  omega

theorem pyTakeLast_append {α : Type} (l r : List α) (n : Nat) :
    pyTakeLast (pyTakeLast l n ++ r) n = pyTakeLast (l ++ r) n := by
  simp only [pyTakeLast, List.length_append, List.length_drop]
  rw [← List.drop_append_of_le_length (by omega : l.length - n ≤ l.length)]
  rw [List.drop_drop]
  congr 1
  omega

theorem add_to_memory_memory (st : AgentState) (r c : String) (w : World)
    (h : st.max_memory = 10) :
    ((add_to_memory st r c w).1).memory =
      pyTakeLast (st.memory ++ [⟨r, c, nowStr w⟩]) 10 := by
  simp only [add_to_memory, h]
  split
  · rfl
  · next hlen => rw [pyTakeLast_eq_self (by omega)]

theorem applyAppends_memory :
    ∀ (ops : List (String × String)) (st : AgentState) (w : World),
      st.max_memory = 10 → st.memory.length ≤ 10 →
      ((applyAppends st w ops).1).memory =
        pyTakeLast (st.memory ++ entriesOf w ops) 10 := by
  intro ops
  induction ops with
  | nil =>
    intro st w hm hlen
    simp only [applyAppends, List.foldl_nil, entriesOf, List.append_nil]
    exact (pyTakeLast_eq_self hlen).symm
  | cons op rest ih =>
    intro st w hm hlen
    obtain ⟨r, c⟩ := op
    have hstep : applyAppends st w ((r, c) :: rest) =
        applyAppends (add_to_memory st r c w).1 (add_to_memory st r c w).2 rest := by
      simp [applyAppends]
    rw [hstep]
    have hm2 : ((add_to_memory st r c w).1).max_memory = 10 := hm
    have hmem := add_to_memory_memory st r c w hm
    have hlen2 : ((add_to_memory st r c w).1).memory.length ≤ 10 := by
      rw [hmem]; exact pyTakeLast_length_le _ _
    rw [ih _ _ hm2 hlen2, hmem]
    have hw2 : (add_to_memory st r c w).2 = wTick w := rfl
    rw [hw2, pyTakeLast_append]
    simp [entriesOf]

theorem demoOracle_good : goodOracle demoOracle := fun _ _ _ => rfl

theorem demoLoads_good : goodLoads demoLoads := fun _ _ h => by cases h

/-- C5: for every oracle response with no brace span, the plan parse yields
the degenerate plan with `tools_to_use = []` and the raw text as `reasoning`,
the worker synthesis parse yields the raw text as `insights` with
`confidence = 50`, and the coordinator verdict parse yields
`delay_probability = 0.5`, `risk_level = "MODERATE"`, `confidence = 50`;
none of the three parses can fail. -/
theorem parse_fallbacks_on_braceless (loads : Loads) (s1 s2 s3 : String)
    (h1 : hasJsonSpan s1 = false) (h2 : hasJsonSpan s2 = false)
    (h3 : hasJsonSpan s3 = false) :
    parse_decision loads s1 =
      .obj [("reasoning", .str s1), ("tools_to_use", .arr []),
            ("expected_outcome", .str "Manual analysis required")] ∧
    parse_synthesis loads s2 =
      .obj [("insights", .str s2), ("confidence", .num 50)] ∧
    parse_assessment loads s3 =
      .obj [("delay_probability", .num 0.5), ("risk_level", .str "MODERATE"),
            ("confidence", .num 50)] := by
  refine ⟨?_, ?_, ?_⟩
  · unfold parse_decision
    dsimp only
    rw [if_neg (of_decide_eq_false h1)]
  · unfold parse_synthesis
    dsimp only
    rw [if_neg (of_decide_eq_false h2)]
  · unfold parse_assessment
    dsimp only
    rw [if_neg (of_decide_eq_false h3)]

/-- Witness for C5 at concrete prose responses. -/
theorem parse_fallbacks_on_braceless_witness :
    parse_decision demoLoads "I think weather is fine" =
      .obj [("reasoning", .str "I think weather is fine"), ("tools_to_use", .arr []),
            ("expected_outcome", .str "Manual analysis required")] ∧
    parse_synthesis demoLoads "all clear" =
      .obj [("insights", .str "all clear"), ("confidence", .num 50)] ∧
    parse_assessment demoLoads "Error calling LLM: timed out" =
      .obj [("delay_probability", .num 0.5), ("risk_level", .str "MODERATE"),
            ("confidence", .num 50)] :=
  parse_fallbacks_on_braceless demoLoads "I think weather is fine" "all clear"
    "Error calling LLM: timed out" (by rfl) (by rfl) (by rfl)

/-- C7: for every registered tool whose bound function raises, `execute`
returns the structured error dict and never propagates the exception. -/
theorem tool_error_wrapped (t : AgentTool) (params : JsonVal) (e : String)
    (h : t.function params = .error e) :
    t.execute params = .obj [("error", .str ("Tool execution failed: " ++ e))] := by
  simp [AgentTool.execute, h]

/-- Witness for C7 at a concrete failing tool. -/
theorem tool_error_wrapped_witness :
    demoFailTool.execute (.obj []) =
      .obj [("error", .str ("Tool execution failed: " ++ "division by zero"))] :=
  tool_error_wrapped demoFailTool (.obj []) "division by zero" rfl

/-- C3 counterexample: registering `"t"` twice on a fresh agent raises no
error and leaves the second binding — the first is silently lost, so the
claimed `DuplicateToolError` behaviour is absent from the code. -/
theorem register_tool_overwrite_cex :
    ((List.lookup "t"
        ((register_tool
            (register_tool (mkBaseAgent "A" "r" "p" "m") "t" "first"
              (fun _ => .ok .null) (.obj []))
            "t" "second" (fun _ => .ok .null) (.obj [])).tools)).map
      AgentTool.description) = some "second" ∧
    some "second" ≠ some "first" ∧
    ((register_tool
        (register_tool (mkBaseAgent "A" "r" "p" "m") "t" "first"
          (fun _ => .ok .null) (.obj []))
        "t" "second" (fun _ => .ok .null) (.obj [])).tools).length = 1 := by
  refine ⟨rfl, by decide, rfl⟩

/-- C3 amended: a second registration under an existing name silently
replaces the binding with the new tool; no error is raised. -/
theorem register_tool_overwrites (st : AgentState) (n d1 d2 : String)
    (f1 f2 : JsonVal → Except String JsonVal) (p1 p2 : JsonVal) :
    List.lookup n ((register_tool (register_tool st n d1 f1 p1) n d2 f2 p2).tools) =
      some ⟨n, d2, f2, p2⟩ := by
  simp [register_tool, lookup_dictSet]

/-- C6 counterexample: a transport failure yields the sentinel
`"Error calling LLM: ..."`, which does not start with `"Error:"`. -/
theorem gateway_sentinel_prefix_cex :
    rawLlmResult (.transportError "HTTPConnectionPool timeout") =
      .str ("Error calling LLM: " ++ "HTTPConnectionPool timeout") ∧
    strHasPrefix "Error:" ("Error calling LLM: " ++ "HTTPConnectionPool timeout") =
      false := by
  exact ⟨rfl, rfl⟩

/-- C6 amended: on every transport failure, timeout, or non-2xx response,
`call_llm` does not raise and returns text beginning with `"Error"`
(transport failures yield `"Error calling LLM: ..."`, non-2xx responses
yield `"Error: Ollama returned ..."`). -/
theorem gateway_failure_sentinel (resp : WireResponse)
    (h : (∃ e, resp = .transportError e) ∨
         (∃ stc b, resp = .http stc b ∧ stc ≠ 200)) :
    ∃ t, rawLlmResult resp = .str t ∧ strHasPrefix "Error" t = true := by
  rcases h with ⟨e, rfl⟩ | ⟨stc, b, rfl, hne⟩
  · exact ⟨_, rfl, rfl⟩
  · refine ⟨"Error: Ollama returned " ++ toString stc, ?_, rfl⟩
    simp [rawLlmResult, hne]

/-- Witness for C6 at a concrete timeout. -/
theorem gateway_failure_sentinel_witness :
    strHasPrefix "Error" ("Error calling LLM: " ++ "timed out") = true := by
  obtain ⟨t, h1, h2⟩ :=
    gateway_failure_sentinel (.transportError "timed out") (Or.inl ⟨"timed out", rfl⟩)
  have ht : JsonVal.str ("Error calling LLM: " ++ "timed out") = .str t := by
    rw [← h1]; rfl
  injection ht with ht2
  rw [ht2]
  exact h2

/-- C10 counterexample: a 2xx body whose `message` is a string (so
`message.content` is absent) makes the inner `.get` raise; `call_llm`
catches it and returns the sentinel, not the empty string. -/
theorem content_missing_cex :
    rawLlmResult (.http 200 (.ok (.obj [("message", .str "hello")]))) =
      .str "Error calling LLM: \x27str\x27 object has no attribute \x27get\x27" ∧
    rawLlmResult (.http 200 (.ok (.obj [("message", .str "hello")]))) ≠
      .str "" := by
  refine ⟨rfl, ?_⟩
  intro h
  rw [show rawLlmResult (.http 200 (.ok (.obj [("message", .str "hello")]))) =
        .str "Error calling LLM: \x27str\x27 object has no attribute \x27get\x27"
      from rfl] at h
  injection h with h2
  exact absurd h2 (by decide)

/-- C10 amended: for a 2xx response whose JSON body is a dict in which
`message` is absent or is a dict lacking `content`, `call_llm` returns the
empty string, and the empty string flows through the brace-scan fallback:
the plan becomes `tools_to_use = []` with empty reasoning. -/
theorem content_missing_yields_empty (loads : Loads)
    (fields ms : List (String × JsonVal))
    (hmsg : (List.lookup "message" fields).getD (.obj []) = .obj ms)
    (hcon : List.lookup "content" ms = none) :
    rawLlmResult (.http 200 (.ok (.obj fields))) = .str "" ∧
    parse_decision loads "" =
      .obj [("reasoning", .str ""), ("tools_to_use", .arr []),
            ("expected_outcome", .str "Manual analysis required")] := by
  constructor
  · simp [rawLlmResult, extractContent, hmsg, hcon]
  · rfl

/-- Witness for C10 at a concrete body whose `message` dict has no
`content` key. -/
theorem content_missing_yields_empty_witness :
    rawLlmResult (.http 200 (.ok (.obj [("message",
        .obj [("role", .str "assistant")])]))) = .str "" ∧
    parse_decision demoLoads "" =
      .obj [("reasoning", .str ""), ("tools_to_use", .arr []),
            ("expected_outcome", .str "Manual analysis required")] :=
  content_missing_yields_empty demoLoads [("message", .obj [("role", .str "assistant")])]
    [("role", .str "assistant")] rfl rfl

/-- C2 counterexample: an oracle response whose text is the parseable JSON
`{"tools_to_use": 5}` (braces escaped here) makes the tool loop iterate an
`int`, raising `TypeError` past `decide_and_act`. -/
theorem decide_and_act_raises_cex :
    (decide_and_act cexOracle cexLoads demoAgent ⟨0, 0⟩ "analyze weather").1 =
      .error (.typeError "\x27int\x27 object is not iterable") := by
  rfl

/-- C2 amended: for every task and every oracle whose responses all carry
text content, with every successfully parsed payload well-shaped (a dict
whose `tools_to_use`, when present, is a list of dicts with hashable tool
names and dict parameters), `decide_and_act` completes and returns a result
dictionary; nothing is raised past its boundary.  Responses with no or
unparseable JSON (including every `"Error..."` sentinel) satisfy this via
the fallback path. -/
theorem decide_and_act_total (oracle : Oracle) (loads : Loads)
    (st : AgentState) (w : World) (task : String)
    (ho : goodOracle oracle) (hl : goodLoads loads) :
    ∃ r st2 w2, decide_and_act oracle loads st w task = (.ok r, st2, w2) := by
  obtain ⟨r, st2, h⟩ := decide_and_act_good ho hl st w task
  exact ⟨r, st2, _, h⟩

/-- Witness for C2 at a concrete benign oracle. -/
theorem decide_and_act_total_witness :
    isOkResult (decide_and_act demoOracle demoLoads demoAgent ⟨0, 0⟩
      "analyze current weather").1 = true := by
  obtain ⟨r, st2, w2, h⟩ := decide_and_act_total demoOracle demoLoads demoAgent ⟨0, 0⟩
    "analyze current weather" demoOracle_good demoLoads_good
  rw [h]
  rfl

/-- C1 counterexample: with zero workers registered, one `coordinate`
request makes 3 gateway calls (the director decomposition pass alone makes
two: its plan call and its synthesis call, plus the final synthesis call),
not `2*0 + 2 = 2` as claimed. -/
theorem coordinate_call_count_cex :
    mkDirector.specialists.length = 0 ∧
    ((coordinate_prediction demoOracle demoLoads mkDirector ⟨0, 0⟩
        "EK230" "DXB" "LHR" "2026-01-01T10:00:00").2.2).llmCount = 3 ∧
    (3 : Nat) ≠ 2 * 0 + 2 := by
  refine ⟨rfl, ?_, by decide⟩
  obtain ⟨report, d2, w2, heq, hllm, _, _⟩ :=
    coordinate_good demoOracle_good demoLoads_good mkDirector ⟨0, 0⟩
      "EK230" "DXB" "LHR" "2026-01-01T10:00:00"
  rw [heq]
  show w2.llmCount = 3
  rw [hllm]
  rfl

/-- C1 amended: for every request served without an exception, the total
number of gateway calls is `2*w + 3` where `w` counts the recognized
specialist names registered: two calls (plan and synthesis) for each
delegated worker, two for the director's own decomposition pass, and one
final synthesis call. -/
theorem coordinate_call_count (oracle : Oracle) (loads : Loads)
    (ho : goodOracle oracle) (hl : goodLoads loads)
    (d : DirectorState) (w : World) (fl o ds dep : String) :
    ∃ report d2 w2,
      coordinate_prediction oracle loads d w fl o ds dep = (.ok report, d2, w2) ∧
      w2.llmCount = w.llmCount + 2 * specialistCount d.specialists + 3 := by
  obtain ⟨report, d2, w2, heq, hllm, _, _⟩ := coordinate_good ho hl d w fl o ds dep
  exact ⟨report, d2, w2, heq, hllm⟩

/-- Witness for C1: one registered specialist gives 2*1 + 3 = 5 calls. -/
theorem coordinate_call_count_witness :
    ((coordinate_prediction demoOracle demoLoads demoDirector ⟨0, 0⟩
        "EK230" "DXB" "LHR" "2026-01-01T10:00:00").2.2).llmCount = 5 := by
  obtain ⟨report, d2, w2, heq, hllm⟩ :=
    coordinate_call_count demoOracle demoLoads demoOracle_good demoLoads_good
      demoDirector ⟨0, 0⟩ "EK230" "DXB" "LHR" "2026-01-01T10:00:00"
  rw [heq]
  show w2.llmCount = 5
  rw [hllm]
  rfl

/-- C4 counterexample: a worker registered under the name
`"route_specialist"` is present in the registry but never delegated to —
`specialist_reports` stays empty, refuting one-sub-task-per-registered-pair. -/
theorem coordinate_delegation_cex :
    strayDirector.specialists.length = 1 ∧
    ((coordinate_prediction demoOracle demoLoads strayDirector ⟨0, 0⟩
        "EK1" "DXB" "LHR" "T").1.map Report.specialist_reports) = .ok [] := by
  refine ⟨rfl, ?_⟩
  obtain ⟨report, d2, w2, heq, _, hkeys, _⟩ :=
    coordinate_good demoOracle_good demoLoads_good strayDirector ⟨0, 0⟩
      "EK1" "DXB" "LHR" "T"
  rw [heq]
  have hek : expectedReportKeys strayDirector.specialists = [] := rfl
  rw [hek] at hkeys
  have h0 : report.specialist_reports = [] := List.map_eq_nil_iff.mp hkeys
  simp [Except.map, h0]

/-- C4 amended: `coordinate` delegates exactly one sub-task to each of the
four recognized specialist names that is registered, in the hard-coded
order weather, flight, location, prediction — regardless of registration
order; workers registered under any other name are never delegated to. -/
theorem coordinate_delegation_fixed_order (oracle : Oracle) (loads : Loads)
    (ho : goodOracle oracle) (hl : goodLoads loads)
    (d : DirectorState) (w : World) (fl o ds dep : String) :
    ∃ report d2 w2,
      coordinate_prediction oracle loads d w fl o ds dep = (.ok report, d2, w2) ∧
      report.specialist_reports.map Prod.fst = expectedReportKeys d.specialists := by
  obtain ⟨report, d2, w2, heq, _, hkeys, _⟩ := coordinate_good ho hl d w fl o ds dep
  exact ⟨report, d2, w2, heq, hkeys⟩

/-- Witness for C4: with prediction registered before weather, delegation
still happens weather-first (the hard-coded order, not registration order). -/
theorem coordinate_delegation_fixed_order_witness :
    ((coordinate_prediction demoOracle demoLoads twoDirector ⟨0, 0⟩
        "EK2" "DXB" "LHR" "T").1.map
      (fun r => r.specialist_reports.map Prod.fst)) =
      .ok ["weather", "prediction"] := by
  obtain ⟨report, d2, w2, heq, hkeys⟩ :=
    coordinate_delegation_fixed_order demoOracle demoLoads demoOracle_good
      demoLoads_good twoDirector ⟨0, 0⟩ "EK2" "DXB" "LHR" "T"
  rw [heq]
  have hek : expectedReportKeys twoDirector.specialists = ["weather", "prediction"] := rfl
  rw [hek] at hkeys
  simp [Except.map, hkeys]

/-- C9 counterexample: with zero registered workers, `coordinate` can still
error — step 1 runs the director's own `decide_and_act`, and a 200 response
whose content is the parseable JSON `{"tools_to_use": 5}` (braces escaped
here) makes its tool loop iterate an `int`, so `TypeError` escapes
`coordinate_prediction`; the claimed unconditional "does not error" fails. -/
theorem coordinate_zero_workers_cex :
    mkDirector.specialists.length = 0 ∧
    (coordinate_prediction cexOracle cexLoads mkDirector ⟨0, 0⟩
        "EK1" "DXB" "LHR" "T").1 =
      .error (.typeError "\x27int\x27 object is not iterable") := by
  exact ⟨rfl, rfl⟩

/-- C9 amended: with zero registered workers, whenever the oracle responses
carry text content and every successfully parsed payload is well-shaped
(the same condition under which `decide_and_act` itself is exception-free),
`coordinate` does not error: it returns a report with an empty
`specialist_reports` mapping whose final verdict is the assessment parse
(real synthesis or its documented fallback) of the final gateway response. -/
theorem coordinate_zero_workers (oracle : Oracle) (loads : Loads)
    (ho : goodOracle oracle) (hl : goodLoads loads)
    (d : DirectorState) (w : World) (fl o ds dep : String)
    (hz : d.specialists = []) :
    ∃ report d2 w2,
      coordinate_prediction oracle loads d w fl o ds dep = (.ok report, d2, w2) ∧
      report.specialist_reports = [] ∧
      ∃ fs, report.final_assessment = parse_assessment loads fs := by
  obtain ⟨report, d2, w2, heq, _, hkeys, hfa⟩ := coordinate_good ho hl d w fl o ds dep
  refine ⟨report, d2, w2, heq, ?_, hfa⟩
  rw [hz] at hkeys
  have hek : expectedReportKeys [] = [] := rfl
  rw [hek] at hkeys
  exact List.map_eq_nil_iff.mp hkeys

/-- Witness for C9 at the freshly constructed director. -/
theorem coordinate_zero_workers_witness :
    ((coordinate_prediction demoOracle demoLoads mkDirector ⟨0, 0⟩
        "EK3" "DXB" "LHR" "T").1.map Report.specialist_reports) = .ok [] := by
  obtain ⟨report, d2, w2, heq, hrep, _⟩ :=
    coordinate_zero_workers demoOracle demoLoads demoOracle_good demoLoads_good
      mkDirector ⟨0, 0⟩ "EK3" "DXB" "LHR" "T" rfl
  rw [heq]
  simp [Except.map, hrep]

/-- C8: starting from the constructor state, after any sequence of appends
the memory holds at most N = 10 entries, and its content is exactly the 10
most recently appended entries in their original insertion order. -/
theorem memory_cap_fifo (name role sp model : String)
    (ops : List (String × String)) (w : World) :
    (((applyAppends (mkBaseAgent name role sp model) w ops).1).memory).length ≤ 10 ∧
    ((applyAppends (mkBaseAgent name role sp model) w ops).1).memory =
      pyTakeLast (entriesOf w ops) 10 := by
  have h := applyAppends_memory ops (mkBaseAgent name role sp model) w rfl
    (by simp [mkBaseAgent])
  rw [show (mkBaseAgent name role sp model).memory = [] from rfl,
      List.nil_append] at h
  refine ⟨?_, h⟩
  rw [h]
  exact pyTakeLast_length_le _ _

